import Mathlib

/-
Verification development for bootorder.py: a shallow embedding of the
UEFI boot-order tool.  Python strings are modelled as lists of characters
(`PyStr`), the efibootmgr subprocess and the filesystem are modelled as an
oracle (`World`), and `main` is modelled as a function producing the trace
of externally visible actions together with the process exit code.
-/

/-- Python strings, modelled as lists of characters. -/
abbrev PyStr := List Char

/-- Conversion from a Lean string literal into the `PyStr` model. -/
def lit (s : String) : PyStr := s.data

/-- The newline character. -/
def nlChar : Char := Char.ofNat 10

/-- The single-quote character (used by the Python repr of a string). -/
def sqChar : Char := Char.ofNat 39

/-- The asterisk character (the active marker in efibootmgr output). -/
def starChar : Char := Char.ofNat 42

/-- The comma character. -/
def commaChar : Char := Char.ofNat 44

/-- The equals-sign character. -/
def eqChar : Char := Char.ofNat 61

/-- str.lower() (the inputs handled by the script are ASCII). -/
def pyLower (s : PyStr) : PyStr := s.map Char.toLower

/-- str.upper(). -/
def pyUpper (s : PyStr) : PyStr := s.map Char.toUpper

/-- Leading-whitespace removal, str.lstrip(). -/
def lstripWS (s : PyStr) : PyStr := s.dropWhile Char.isWhitespace

/-- Trailing-whitespace removal, str.rstrip(). -/
def rstripWS (s : PyStr) : PyStr := ((s.reverse).dropWhile Char.isWhitespace).reverse

/-- str.strip(). -/
def pyStrip (s : PyStr) : PyStr := rstripWS (lstripWS s)

/-- str.splitlines() for newline-separated text (the only separator the
tool's line-oriented output uses): "" gives no lines, a trailing newline
does not open a further empty line. -/
def pySplitlines : PyStr → List PyStr
  | [] => []
  | c :: t =>
    if c = nlChar then [] :: pySplitlines t
    else
      match pySplitlines t with
      | [] => [[c]]
      | l :: ls => (c :: l) :: ls

/-- str.split(sep) with a single-character separator ("" splits to [""]). -/
def pySplit (sep : Char) : PyStr → List PyStr
  | [] => [[]]
  | c :: t =>
    if c = sep then [] :: pySplit sep t
    else
      match pySplit sep t with
      | [] => [[c]]
      | l :: ls => (c :: l) :: ls

/-- str.split(sep, 1): the part before the first separator and, when the
separator occurs, the remainder after it. -/
def splitOnce (sep : Char) : PyStr → PyStr × Option PyStr
  | [] => ([], none)
  | c :: t =>
    if c = sep then ([], some t)
    else
      let r := splitOnce sep t
      (c :: r.1, r.2)

/-- Bool test that the first list is a leading segment of the second
(str.startswith). -/
def leadEq : PyStr → PyStr → Bool
  | [], _ => true
  | _ :: _, [] => false
  | a :: as, b :: bs => a == b && leadEq as bs

/-- Python substring test `needle in hay`. -/
def hasSub (n : PyStr) : PyStr → Bool
  | [] => n.isEmpty
  | c :: t => leadEq n (c :: t) || hasSub n t

/-- A hexadecimal digit of either case, the character class [0-9A-Fa-f]. -/
def isHexDigitChar (c : Char) : Bool :=
  c.isDigit || (Char.ofNat 97 ≤ c && c ≤ Char.ofNat 102)
    || (Char.ofNat 65 ≤ c && c ≤ Char.ofNat 70)

/-- A lower-case hexadecimal digit, the character class [0-9a-f]. -/
def isLowerHexChar (c : Char) : Bool :=
  c.isDigit || (Char.ofNat 97 ≤ c && c ≤ Char.ofNat 102)

/-- re.fullmatch(r"[0-9a-f]{4}", s): exactly four lower-case hex digits. -/
def isHex4 (s : PyStr) : Bool := s.length == 4 && s.all isLowerHexChar

/-- The character class [0-9A-Fa-f,] of the BootOrder line payload. -/
def isHexCommaChar (c : Char) : Bool := isHexDigitChar c || c == commaChar

/-- Python repr of a list of strings, as interpolated by the f-strings of
the error messages. -/
def pyReprList (l : List PyStr) : PyStr :=
  lit ("[")
    ++ List.intercalate (lit (", ")) (l.map (fun s => sqChar :: (s ++ [sqChar])))
    ++ lit ("]")

/-- Python repr of a bool, as interpolated by f-strings. -/
def pyBool (b : Bool) : PyStr := if b then lit ("True") else lit ("False")

/-- The two failure classes of the script: `boot` is the recognized
BootOrderError with its message, `other` any unanticipated exception. -/
inductive PyExc where
  | boot : PyStr → PyExc
  | other : PyExc
deriving DecidableEq

/-- The entries dict: an association list in insertion order, as a Python
dict iterates. -/
abbrev Entries := List (PyStr × PyStr)

/-- dict assignment `d[k] = v`: overwrite in place when the key exists
(keeping its original position), append otherwise. -/
def dictInsert (d : Entries) (k v : PyStr) : Entries :=
  if d.any (fun p => p.1 == k) then d.map (fun p => if p.1 == k then (k, v) else p)
  else d ++ [(k, v)]

/-- dict key membership `k in d`. -/
def hasKey (d : Entries) (k : PyStr) : Bool := d.any (fun p => p.1 == k)

/-- run_efibootmgr: the oracle value models the subprocess call (timeout,
OSError and non-zero return code are already wrapped into BootOrderError
by the source, an unanticipated exception is `other`); the empty-output
check of the source is applied on top of a successful call. -/
def run_efibootmgr (sub : Except PyExc PyStr) : Except PyExc PyStr :=
  match sub with
  | .error e => .error e
  | .ok out =>
    if pyStrip out = [] then .error (.boot (lit ("efibootmgr lieferte leere Ausgabe.")))
    else .ok out

/-- One line matched against the anchored pattern
`BootOrder:\s*([0-9A-Fa-f,]+)\s*$`, returning the payload group. -/
def bootOrderLineMatch (l : PyStr) : Option PyStr :=
  if leadEq (lit ("BootOrder:")) l then
    let rest2 := (l.drop 10).dropWhile Char.isWhitespace
    let payload := rest2.takeWhile isHexCommaChar
    let tl := rest2.drop payload.length
    if !payload.isEmpty && tl.all Char.isWhitespace then some payload else none
  else none

/-- parse_boot_order: locate the BootOrder line, split its payload on
commas, lower-case the tokens and validate each as 4 hex digits. -/
def parse_boot_order (output : PyStr) : Except PyExc (List PyStr) :=
  match (pySplitlines output).findSome? bootOrderLineMatch with
  | none => .error (.boot (lit ("BootOrder konnte aus efibootmgr-Ausgabe nicht geparst werden.")))
  | some payload =>
    let order := (pySplit commaChar payload).map pyLower
    if order.isEmpty || order.any (fun x => !(isHex4 x)) then
      .error (.boot (lit ("BootOrder-Format ungültig: ") ++ pyReprList order))
    else .ok order

/-- One stripped line matched against
`Boot([0-9A-Fa-f]{4})\*?\s+(.*)$`, returning the lower-cased id and the
stripped description. -/
def entryLineMatch (line : PyStr) : Option (PyStr × PyStr) :=
  let t := pyStrip line
  if leadEq (lit ("Boot")) t then
    let afterBoot := t.drop 4
    let id4 := afterBoot.take 4
    if id4.length == 4 && id4.all isHexDigitChar then
      let rest :=
        match afterBoot.drop 4 with
        | c :: tl => if c = starChar then tl else c :: tl
        | [] => []
      match rest with
      | c :: _ =>
        if c.isWhitespace then some (pyLower id4, pyStrip (rest.dropWhile Char.isWhitespace))
        else none
      | [] => none
    else none
  else none

/-- parse_entries: scan every line for a boot entry, later duplicate ids
overwriting earlier ones; fail when no entry is found. -/
def parse_entries (output : PyStr) : Except PyExc Entries :=
  let entries := (pySplitlines output).foldl
    (fun acc line =>
      match entryLineMatch line with
      | some kv => dictInsert acc kv.1 kv.2
      | none => acc) []
  if entries.isEmpty then .error (.boot (lit ("Keine Boot-Einträge gefunden.")))
  else .ok entries

/-- get_current_state: one tool query, both parses, then the cross-check
that every id of the order is a key of the entries dict. -/
def get_current_state (sub : Except PyExc PyStr) : Except PyExc (List PyStr × Entries) :=
  match run_efibootmgr sub with
  | .error e => .error e
  | .ok out =>
    match parse_boot_order out with
    | .error e => .error e
    | .ok order =>
      match parse_entries out with
      | .error e => .error e
      | .ok entries =>
        let missing := order.filter (fun x => !(hasKey entries x))
        if missing.isEmpty then .ok (order, entries)
        else .error (.boot (lit ("BootOrder enthält unbekannte IDs: ")
          ++ List.intercalate (lit (", ")) missing))

/-- The per-entry test of the selection loop: the lower-cased description
equals the lower-cased query when exact, else contains it. -/
def nameMatches (name : PyStr) (exact : Bool) (p : PyStr × PyStr) : Bool :=
  if exact then pyLower p.2 == pyLower name else hasSub (pyLower name) (pyLower p.2)

/-- select_target_by_name: case-insensitive substring (or, with the exact
flag, equality) match of the query against the descriptions, in dict
order; zero or several matches fail. -/
def select_target_by_name (entries : Entries) (name : PyStr) (exact : Bool) :
    Except PyExc PyStr :=
  match entries.filter (nameMatches name exact) with
  | [] =>
    .error (.boot (lit ("Kein Eintrag gefunden für Name=") ++ [sqChar] ++ name ++ [sqChar]
      ++ lit (" (exact=") ++ pyBool exact ++ lit (").")))
  | [m] => .ok m.1
  | ms =>
    .error (.boot (lit ("Mehrdeutig: mehrere Einträge gefunden: ")
      ++ List.intercalate (lit ("; ")) (ms.map (fun p => pyUpper p.1 ++ lit (":") ++ p.2))
      ++ lit (". Nutzen Sie --exact oder --id.")))

/-- The exact byte content write_backup puts into the backup file: the
source calls f.write without any newline, so header, BootOrder= field and
every BootEntry field are juxtaposed on a single line, separated only by
trailing spaces. -/
def backupContent (ts : PyStr) (order : List PyStr) (entries : Entries) : PyStr :=
  lit ("# Backup erstellt: ") ++ ts
    ++ lit ("BootOrder=") ++ List.intercalate (lit (",")) (order.map pyUpper) ++ lit (" ")
    ++ ((entries.map (fun p => lit ("BootEntry ") ++ pyUpper p.1 ++ lit ("=") ++ p.2 ++ lit (" "))).flatten)

/-- validate_ids_exist: every id must be a key of the entries dict,
otherwise fail naming the missing ids upper-cased. -/
def validate_ids_exist (ids : List PyStr) (entries : Entries) : Except PyExc Unit :=
  let missing := ids.filter (fun x => !(hasKey entries x))
  if missing.isEmpty then .ok ()
  else .error (.boot (lit ("Backup/Order enthält unbekannte IDs (aktuell nicht vorhanden): ")
    ++ List.intercalate (lit (", ")) (missing.map pyUpper)))

/-- read_backup_order: a missing file fails outside the try block; inside
it, the first line whose stripped form starts with BootOrder= is split on
the first equals sign, the value split on commas, lower-cased and
validated; any exception raised inside the try block is wrapped into a
BootOrderError naming the path. -/
def read_backup_order (path : PyStr) (file : Option PyStr) : Except PyExc (List PyStr) :=
  match file with
  | none => .error (.boot (lit ("Backup-Datei nicht gefunden: ") ++ path))
  | some content =>
    let inner : Except PyExc (List PyStr) :=
      match (pySplitlines content).find? (fun l => leadEq (lit ("BootOrder=")) (pyStrip l)) with
      | none => .error (.boot (lit ("BootOrder= Zeile im Backup fehlt.")))
      | some line =>
        let afterEq :=
          match (splitOnce eqChar (pyStrip line)).2 with
          | some v => v
          | none => []
        let val := pyStrip afterEq
        let ids := (pySplit commaChar val).map pyLower
        if ids.isEmpty || ids.any (fun x => !(isHex4 x)) then
          .error (.boot (lit ("Ungültige BootOrder im Backup: ") ++ val))
        else .ok ids
    match inner with
    | .ok ids => .ok ids
    | .error (.boot m) =>
      .error (.boot (lit ("Backup konnte nicht gelesen werden: ") ++ path
        ++ lit (" (") ++ m ++ lit (")")))
    | .error .other => .error .other

/-- Step 4 of main: new_order = [target_entry] + [x for x in
original_order if x != target_entry]. -/
def new_order (target : PyStr) (originalOrder : List PyStr) : List PyStr :=
  target :: originalOrder.filter (fun x => !(x == target))

/-- Externally visible actions of a run, in program order. `setCall o`
marks the launch of the external tool with the mutating "-o" argument
built from o (as the comma-joined upper-cased ids), after the guards of
set_boot_order passed; `queryCall` a no-argument query launch. -/
inductive Act where
  | queryCall : Act
  | setCall : List PyStr → Act
  | backupWriteCall : PyStr → Act
  | targetChosen : PyStr → Act
  | warnNoSnapshot : Act
  | logError : PyStr → Act
  | logUnexpected : Act
  | logRestoreDone : Act
  | logRestoreFailed : PyStr → Act
  | logRestoreUnexpected : Act
deriving DecidableEq

/-- set_boot_order: reject an empty order or any id that is not four
lower-case hex digits before launching the external command. -/
def set_boot_order (order : List PyStr) (sub : Except PyExc PyStr) :
    List Act × Except PyExc Unit :=
  if order.isEmpty then
    ([], .error (.boot (lit ("Leere BootOrder kann nicht gesetzt werden."))))
  else if order.any (fun x => !(isHex4 x)) then
    ([], .error (.boot (lit ("Ungültige Boot-ID im Order: ") ++ pyReprList order)))
  else
    ([Act.setCall order],
      match run_efibootmgr sub with
      | .error e => .error e
      | .ok _ => .ok ())

/-- write_backup: the oracle value is the outcome of the file I/O (none
is success, some m an exception with message m); every exception is
wrapped into a BootOrderError naming the path. -/
def write_backup (path : PyStr) (order : List PyStr) (entries : Entries) (ts : PyStr)
    (io : Option PyStr) : List Act × Except PyExc Unit :=
  match io with
  | none => ([Act.backupWriteCall (backupContent ts order entries)], .ok ())
  | some m =>
    ([], .error (.boot (lit ("Backup konnte nicht geschrieben werden: ") ++ path
      ++ lit (" (") ++ m ++ lit (")"))))

/-- The command line after argument parsing. The mutually exclusive
required group guarantees exactly one of id and name is present; id holds
the raw string the caller supplied (argparse lower-cases it at use, see
argsIdValue). -/
structure Args where
  id : Option PyStr
  name : Option PyStr
  exact : Bool
  backupPath : PyStr
  restoreFromBackup : Bool
  noPrompt : Bool

/-- The value argparse stores for --id: type=lambda s: s.lower(). -/
def argsIdValue (a : Args) : Option PyStr := a.id.map pyLower

/-- The oracle fixing every externally determined outcome of one run:
privilege and tool availability, the result of each subprocess call in
program order, the backup file I/O, the backup file content found at
restore time, and whether the interactive prompt returns normally. -/
structure World where
  rootOk : Bool
  toolOk : Bool
  ts : PyStr
  query1 : Except PyExc PyStr
  backupWrite : Option PyStr
  setMain : Except PyExc PyStr
  promptOk : Bool
  backupFile : Option PyStr
  query2 : Except PyExc PyStr
  setRestore : Except PyExc PyStr

/-- Steps 0-1 of main: ensure_root, ensure_efibootmgr_available, then
get_current_state. -/
def readStage (w : World) : List Act × Except PyExc (List PyStr × Entries) :=
  if !w.rootOk then
    ([], .error (.boot (lit ("Dieses Skript muss mit Root-Rechten ausgeführt werden (sudo)."))))
  else if !w.toolOk then
    ([], .error (.boot (lit ("efibootmgr ist nicht installiert oder nicht im PATH."))))
  else
    ([Act.queryCall], get_current_state w.query1)

/-- The snapshot main captured: original_order and entries are assigned
exactly when get_current_state returned, so the truthiness probe
`'original_order' in locals()` of the finally block is modelled by this
option. -/
def snapOf (w : World) : Option (List PyStr × Entries) :=
  match (readStage w).2 with
  | .ok s => some s
  | .error _ => none

/-- Step 3 of main: `if args.id:` (truthiness, so an empty id string
falls through to the name branch); the id path validates shape then
membership; the name branch calls select_target_by_name with args.name,
which is None in that case and raises AttributeError (`other`). -/
def resolveTarget (args : Args) (entries : Entries) : Except PyExc PyStr :=
  let nameRes : Except PyExc PyStr :=
    match args.name with
    | some nm => select_target_by_name entries nm args.exact
    | none => .error .other
  match argsIdValue args with
  | some tid =>
    if tid.isEmpty then nameRes
    else if !(isHex4 tid) then .error (.boot (lit ("Ungültige Ziel-ID: ") ++ tid))
    else if !(hasKey entries tid) then
      .error (.boot (lit ("Ziel-ID ") ++ pyUpper tid ++ lit (" existiert nicht.")))
    else .ok tid
  | none => nameRes

/-- The try block of main (steps 1-5): read, backup, resolve, reorder and
apply, optional prompt. Returns the trace and the outcome the except
handlers will classify. -/
def primaryFlow (w : World) (args : Args) : List Act × Except PyExc Unit :=
  match readStage w with
  | (a, .error e) => (a, .error e)
  | (a, .ok st) =>
    match write_backup args.backupPath st.1 st.2 w.ts w.backupWrite with
    | (b, .error e) => (a ++ b, .error e)
    | (b, .ok _) =>
      match resolveTarget args st.2 with
      | .error e => (a ++ b, .error e)
      | .ok target =>
        match set_boot_order (new_order target st.1) w.setMain with
        | (c, .error e) => (a ++ b ++ Act.targetChosen target :: c, .error e)
        | (c, .ok _) =>
          if args.noPrompt then (a ++ b ++ Act.targetChosen target :: c, .ok ())
          else if w.promptOk then (a ++ b ++ Act.targetChosen target :: c, .ok ())
          else (a ++ b ++ Act.targetChosen target :: c, .error .other)

/-- The body of the try block inside finally: either restore from the
backup file (re-reading the current state and validating the backup ids
against it) or re-apply the captured original order, warning when no
snapshot exists. -/
def restoreInner (w : World) (args : Args) (snap : Option (List PyStr × Entries)) :
    List Act × Except PyExc Unit :=
  if args.restoreFromBackup then
    match read_backup_order args.backupPath w.backupFile with
    | .error e => ([], .error e)
    | .ok backupOrder =>
      match get_current_state w.query2 with
      | .error e => ([Act.queryCall], .error e)
      | .ok st =>
        match validate_ids_exist backupOrder st.2 with
        | .error e => ([Act.queryCall], .error e)
        | .ok _ =>
          let r := set_boot_order backupOrder w.setRestore
          (Act.queryCall :: r.1, r.2)
  else
    match snap with
    | some s =>
      if s.1.isEmpty then ([Act.warnNoSnapshot], .ok ())
      else set_boot_order s.1 w.setRestore
    | none => ([Act.warnNoSnapshot], .ok ())

/-- The finally block of main: the restore attempt with its own handlers,
which log a recognized or unanticipated failure and never re-raise. -/
def restoreBlock (w : World) (args : Args) (snap : Option (List PyStr × Entries)) :
    List Act :=
  match restoreInner w args snap with
  | (a, .ok _) => a ++ [Act.logRestoreDone]
  | (a, .error (.boot m)) => a ++ [Act.logRestoreFailed m]
  | (a, .error .other) => a ++ [Act.logRestoreUnexpected]

/-- main: the try block, the except handlers fixing the exit code (0
success, 1 BootOrderError, 2 unanticipated), then the finally block; the
process exits with that code after the finally block ran. -/
def runMain (w : World) (args : Args) : List Act × Nat :=
  let p := primaryFlow w args
  let h : List Act × Nat :=
    match p.2 with
    | .ok _ => ([], 0)
    | .error (.boot m) => ([Act.logError m], 1)
    | .error .other => ([Act.logUnexpected], 2)
  (p.1 ++ h.1 ++ restoreBlock w args (snapOf w), h.2)

deriving instance DecidableEq for Except

/-- Boolean duality between an any-not and an all. -/
theorem any_not_eq_not_all (p : PyStr → Bool) (l : List PyStr) :
    l.any (fun x => !(p x)) = !(l.all p) := by
  induction l with
  | nil => rfl
  | cons a t ih => simp [ih, Bool.not_and]

/-- An order accepted by parse_boot_order is non-empty and consists of
4-digit lower-case hex ids. -/
theorem parse_boot_order_ok_shape {output : PyStr} {l : List PyStr}
    (h : parse_boot_order output = .ok l) :
    l.isEmpty = false ∧ l.all isHex4 = true := by
  unfold parse_boot_order at h
  cases hf : (pySplitlines output).findSome? bootOrderLineMatch with
  | none => rw [hf] at h; exact absurd h (by simp)
  | some payload =>
    rw [hf] at h
    dsimp only [] at h
    by_cases hc : (((pySplit commaChar payload).map pyLower).isEmpty
        || ((pySplit commaChar payload).map pyLower).any (fun x => !(isHex4 x))) = true
    · rw [if_pos hc] at h; exact absurd h (by simp)
    · rw [if_neg hc] at h
      have hl : (pySplit commaChar payload).map pyLower = l := by
        exact Except.ok.inj h
      rw [hl] at hc
      rw [Bool.or_eq_true, not_or] at hc
      refine ⟨by simpa using hc.1, ?_⟩
      have := hc.2
      rw [any_not_eq_not_all] at this
      simpa using this

/-- A state accepted by get_current_state has a non-empty all-hex order. -/
theorem get_current_state_ok_shape {sub : Except PyExc PyStr}
    {st : List PyStr × Entries} (h : get_current_state sub = .ok st) :
    st.1.isEmpty = false ∧ st.1.all isHex4 = true := by
  unfold get_current_state at h
  cases hr : run_efibootmgr sub with
  | error e => rw [hr] at h; exact absurd h (by simp)
  | ok out =>
    rw [hr] at h
    dsimp only [] at h
    cases ho : parse_boot_order out with
    | error e => rw [ho] at h; exact absurd h (by simp)
    | ok order =>
      rw [ho] at h
      dsimp only [] at h
      cases he : parse_entries out with
      | error e => rw [he] at h; exact absurd h (by simp)
      | ok entries =>
        rw [he] at h
        dsimp only [] at h
        by_cases hm : (order.filter (fun x => !(hasKey entries x))).isEmpty = true
        · rw [if_pos hm] at h
          have : (order, entries) = st := Except.ok.inj h
          rw [← this]
          exact parse_boot_order_ok_shape ho
        · rw [if_neg hm] at h; exact absurd h (by simp)

/-- A captured snapshot means the preflight checks passed and
get_current_state returned exactly that snapshot. -/
theorem snapOf_some {w : World} {s : List PyStr × Entries} (h : snapOf w = some s) :
    w.rootOk = true ∧ w.toolOk = true ∧ get_current_state w.query1 = .ok s := by
  unfold snapOf readStage at h
  by_cases h1 : w.rootOk = true
  · by_cases h2 : w.toolOk = true
    · rw [h1, h2] at h
      simp only [Bool.not_true, Bool.false_eq_true, if_false] at h
      cases hq : get_current_state w.query1 with
      | ok v => rw [hq] at h; simp only [Option.some.injEq] at h; exact ⟨h1, h2, by rw [← h]⟩
      | error e => rw [hq] at h; exact absurd h (by simp)
    · rw [h1, (Bool.not_eq_true _).mp h2] at h
      simp at h
  · rw [(Bool.not_eq_true _).mp h1] at h
    simp at h

/-- With a non-empty all-hex order the guards of set_boot_order pass and
the external set call is launched with exactly that order. -/
theorem set_boot_order_acts_of_valid (order : List PyStr) (sub : Except PyExc PyStr)
    (h1 : order.isEmpty = false) (h2 : order.all isHex4 = true) :
    (set_boot_order order sub).1 = [Act.setCall order] := by
  unfold set_boot_order
  rw [h1, any_not_eq_not_all, h2]
  simp

/-- C4: the computed new order is the target followed by the original
order with the target removed: the target is at position 0, the rest is
the original order filtered of the target (hence a sublist preserving
relative order), every other id keeps its multiplicity, and the target
does not reappear after position 0. -/
theorem C4_new_order_shape (target : PyStr) (originalOrder : List PyStr) :
    (new_order target originalOrder).head? = some target
    ∧ (new_order target originalOrder).tail
        = originalOrder.filter (fun x => !(x == target))
    ∧ (originalOrder.filter (fun x => !(x == target))).Sublist originalOrder
    ∧ (∀ x : PyStr, x ≠ target →
        (new_order target originalOrder).count x = originalOrder.count x)
    ∧ target ∉ (new_order target originalOrder).tail := by
  refine ⟨rfl, rfl, List.filter_sublist _, ?_, ?_⟩
  · intro x hx
    have hbeq : (target == x) = false := by
      simp [Ne.symm hx]
    unfold new_order
    rw [List.count_cons, List.count_filter (by simp [hx]), hbeq]
    simp
  · intro hmem
    unfold new_order at hmem
    simp only [List.tail_cons, List.mem_filter] at hmem
    simp at hmem

/-- C4 witness: the shape properties evaluated at target 0002 over the
original order [0001, 0002, 0003]. -/
theorem C4_new_order_shape_witness :
    ((lit ("0002")) ≠ (lit ("0001"))
      ∧ (new_order (lit ("0002")) [lit ("0001"), lit ("0002"), lit ("0003")]).count (lit ("0001"))
          = [lit ("0001"), lit ("0002"), lit ("0003")].count (lit ("0001")))
    ∧ (new_order (lit ("0002")) [lit ("0001"), lit ("0002"), lit ("0003")]).head?
        = some (lit ("0002")) := by
  refine ⟨⟨by decide, ?_⟩, (C4_new_order_shape (lit ("0002")) [lit ("0001"), lit ("0002"), lit ("0003")]).1⟩
  exact (C4_new_order_shape (lit ("0002")) [lit ("0001"), lit ("0002"), lit ("0003")]).2.2.2.1
    (lit ("0001")) (by decide)

/-- C10: the external tool is launched with the mutating "-o" argument
only for a non-empty order whose every id is four lower-case hex digits;
an empty or malformed order makes set_boot_order raise the recognized
error before any launch. -/
theorem C10_set_guard (order : List PyStr) (sub : Except PyExc PyStr) :
    (∀ o : List PyStr, Act.setCall o ∈ (set_boot_order order sub).1 →
      o = order ∧ order.isEmpty = false ∧ order.all isHex4 = true)
    ∧ ((order.isEmpty = true ∨ order.all isHex4 = false) →
      (set_boot_order order sub).1 = []
      ∧ ∃ m, (set_boot_order order sub).2 = .error (.boot m)) := by
  by_cases h1 : order.isEmpty = true
  · constructor
    · intro o ho
      unfold set_boot_order at ho
      rw [if_pos h1] at ho
      simp at ho
    · intro _
      unfold set_boot_order
      rw [if_pos h1]
      exact ⟨rfl, _, rfl⟩
  · have h1f : order.isEmpty = false := (Bool.not_eq_true _).mp h1
    by_cases h2 : order.all isHex4 = true
    · have hacts := set_boot_order_acts_of_valid order sub h1f h2
      constructor
      · intro o ho
        rw [hacts] at ho
        simp only [List.mem_singleton, Act.setCall.injEq] at ho
        exact ⟨ho, h1f, h2⟩
      · intro hbad
        rcases hbad with hb | hb
        · exact absurd hb h1
        · rw [h2] at hb; exact absurd hb (by simp)
    · have h2f : order.all isHex4 = false := (Bool.not_eq_true _).mp h2
      have hany : order.any (fun x => !(isHex4 x)) = true := by
        rw [any_not_eq_not_all, h2f]; rfl
      constructor
      · intro o ho
        unfold set_boot_order at ho
        rw [h1f, hany] at ho
        simp at ho
      · intro _
        unfold set_boot_order
        rw [h1f, hany]
        exact ⟨by simp, lit ("Ungültige Boot-ID im Order: ") ++ pyReprList order, by simp⟩

/-- C10 witness: the guard evaluated on the valid order [0002, 0001]
(the launch carries exactly it) and on the malformed order [00G1]. -/
theorem C10_set_guard_witness :
    ([lit ("0002"), lit ("0001")] = [lit ("0002"), lit ("0001")]
      ∧ ([lit ("0002"), lit ("0001")] : List PyStr).isEmpty = false
      ∧ ([lit ("0002"), lit ("0001")] : List PyStr).all isHex4 = true)
    ∧ ((set_boot_order [lit ("00G1")] (.ok (lit ("x")))).1 = []
      ∧ ∃ m, (set_boot_order [lit ("00G1")] (.ok (lit ("x")))).2 = .error (.boot m)) :=
  ⟨(C10_set_guard [lit ("0002"), lit ("0001")] (.ok (lit ("x")))).1
      [lit ("0002"), lit ("0001")] (by decide),
    (C10_set_guard [lit ("00G1")] (.ok (lit ("x")))).2 (by decide)⟩

/-- C6: with exactly one entry whose description matches the query
(case-insensitive substring, or case-insensitive equality with the exact
flag) select_target_by_name returns that entry's id; with zero matches it
fails reporting the query and the mode; with two or more matches it fails
reporting all matching ids and descriptions instead of picking one. -/
theorem C6_select_by_name (entries : Entries) (name : PyStr) (exact : Bool) :
    (∀ b d : PyStr, entries.filter (nameMatches name exact) = [(b, d)] →
      select_target_by_name entries name exact = .ok b)
    ∧ (entries.filter (nameMatches name exact) = [] →
      select_target_by_name entries name exact
        = .error (.boot (lit ("Kein Eintrag gefunden für Name=") ++ [sqChar] ++ name
            ++ [sqChar] ++ lit (" (exact=") ++ pyBool exact ++ lit (")."))))
    ∧ (∀ (m1 m2 : PyStr × PyStr) (rest : List (PyStr × PyStr)),
        entries.filter (nameMatches name exact) = m1 :: m2 :: rest →
        select_target_by_name entries name exact
          = .error (.boot (lit ("Mehrdeutig: mehrere Einträge gefunden: ")
              ++ List.intercalate (lit ("; "))
                  ((m1 :: m2 :: rest).map (fun p => pyUpper p.1 ++ lit (":") ++ p.2))
              ++ lit (". Nutzen Sie --exact oder --id.")))) := by
  refine ⟨?_, ?_, ?_⟩
  · intro b d hm
    unfold select_target_by_name
    rw [hm]
  · intro hm
    unfold select_target_by_name
    rw [hm]
  · intro m1 m2 rest hm
    unfold select_target_by_name
    rw [hm]

/-- C6 witness: the unique-match, zero-match and ambiguous cases
evaluated on concrete entry tables. -/
theorem C6_select_by_name_witness :
    select_target_by_name [(lit ("0001"), lit ("Windows")), (lit ("0002"), lit ("Ubuntu"))]
        (lit ("ubuntu")) false = .ok (lit ("0002"))
    ∧ select_target_by_name [(lit ("0001"), lit ("Windows")), (lit ("0002"), lit ("Ubuntu"))]
        (lit ("boot")) false
      = .error (.boot (lit ("Kein Eintrag gefunden für Name=") ++ [sqChar] ++ lit ("boot")
          ++ [sqChar] ++ lit (" (exact=") ++ pyBool false ++ lit (").")))
    ∧ select_target_by_name [(lit ("0001"), lit ("Windows B")), (lit ("0002"), lit ("Ubuntu B"))]
        (lit ("b")) false
      = .error (.boot (lit ("Mehrdeutig: mehrere Einträge gefunden: ")
          ++ List.intercalate (lit ("; "))
              ([(lit ("0001"), lit ("Windows B")), (lit ("0002"), lit ("Ubuntu B"))].map
                (fun p => pyUpper p.1 ++ lit (":") ++ p.2))
          ++ lit (". Nutzen Sie --exact oder --id."))) :=
  ⟨(C6_select_by_name [(lit ("0001"), lit ("Windows")), (lit ("0002"), lit ("Ubuntu"))]
      (lit ("ubuntu")) false).1 (lit ("0002")) (lit ("Ubuntu")) (by decide),
   (C6_select_by_name [(lit ("0001"), lit ("Windows")), (lit ("0002"), lit ("Ubuntu"))]
      (lit ("boot")) false).2.1 (by decide),
   (C6_select_by_name [(lit ("0001"), lit ("Windows B")), (lit ("0002"), lit ("Ubuntu B"))]
      (lit ("b")) false).2.2 (lit ("0001"), lit ("Windows B")) (lit ("0002"), lit ("Ubuntu B"))
      [] (by decide)⟩

/-- C5: when the parsed order references an id absent from the parsed
entries dict, get_current_state fails naming exactly the missing ids and
returns no result at all; with no missing id it returns the parsed order
and entries. -/
theorem C5_get_current_state_cross_check (out : PyStr) (ord : List PyStr) (ents : Entries)
    (hne : pyStrip out ≠ [])
    (ho : parse_boot_order out = .ok ord) (he : parse_entries out = .ok ents) :
    (ord.filter (fun x => !(hasKey ents x)) ≠ [] →
      get_current_state (.ok out)
        = .error (.boot (lit ("BootOrder enthält unbekannte IDs: ")
            ++ List.intercalate (lit (", ")) (ord.filter (fun x => !(hasKey ents x))))))
    ∧ (ord.filter (fun x => !(hasKey ents x)) = [] →
      get_current_state (.ok out) = .ok (ord, ents)) := by
  have hrun : run_efibootmgr (.ok out) = .ok out := by
    unfold run_efibootmgr
    dsimp only []
    rw [if_neg hne]
  constructor
  · intro hm
    have hm2 : (ord.filter (fun x => !(hasKey ents x))).isEmpty = false := by
      rw [List.isEmpty_eq_false]
      exact hm
    simp only [get_current_state, hrun, ho, he, hm2]
    rw [if_neg (by simp [hm2])]
  · intro hm
    have hm2 : (ord.filter (fun x => !(hasKey ents x))).isEmpty = true := by
      rw [hm]; rfl
    simp only [get_current_state, hrun, ho, he]
    rw [if_pos (by simp [hm2])]

/-- C5 witness: an output whose order references 0003 while only 0001 is
listed fails naming 0003; the clean two-entry output round-trips. -/
theorem C5_get_current_state_cross_check_witness :
    get_current_state (.ok (lit ("BootOrder: 0001,0003\nBoot0001* Windows")))
      = .error (.boot (lit ("BootOrder enthält unbekannte IDs: ")
          ++ List.intercalate (lit (", ")) [lit ("0003")]))
    ∧ get_current_state (.ok (lit ("BootOrder: 0001\nBoot0001* Windows")))
      = .ok ([lit ("0001")], [(lit ("0001"), lit ("Windows"))]) := by
  constructor
  · have h := (C5_get_current_state_cross_check
      (lit ("BootOrder: 0001,0003\nBoot0001* Windows"))
      [lit ("0001"), lit ("0003")] [(lit ("0001"), lit ("Windows"))]
      (by decide) (by decide) (by decide)).1 (by decide)
    exact h.trans (by decide)
  · exact (C5_get_current_state_cross_check
      (lit ("BootOrder: 0001\nBoot0001* Windows"))
      [lit ("0001")] [(lit ("0001"), lit ("Windows"))]
      (by decide) (by decide) (by decide)).2 (by decide)

/-- A newline-free non-empty string is a single line. -/
theorem pySplitlines_no_nl {s : PyStr} (h : nlChar ∉ s) (hne : s ≠ []) :
    pySplitlines s = [s] := by
  induction s with
  | nil => exact absurd rfl hne
  | cons c t ih =>
    have hc : ¬(c = nlChar) := by
      intro hq
      exact h (hq ▸ List.mem_cons_self c t)
    unfold pySplitlines
    rw [if_neg hc]
    by_cases ht : t = []
    · subst ht; rfl
    · have ih2 := ih (fun hm => h (List.mem_cons_of_mem c hm)) ht
      rw [ih2]

/-- Stripping keeps the head of a string whose head is not whitespace. -/
theorem rstripWS_cons_head {c : Char} (hc : c.isWhitespace = false) (r : PyStr) :
    ∃ r2, rstripWS (c :: r) = c :: r2 := by
  unfold rstripWS
  rw [List.reverse_cons, List.dropWhile_append]
  by_cases he : (List.dropWhile Char.isWhitespace r.reverse).isEmpty = true
  · rw [if_pos he]
    refine ⟨[], ?_⟩
    rw [List.dropWhile_cons]
    rw [hc]
    simp
  · rw [if_neg he]
    refine ⟨(List.dropWhile Char.isWhitespace r.reverse).reverse, ?_⟩
    rw [List.reverse_append]
    simp

/-- The stripped backup file content still starts with the # of the
header comment, hence never with BootOrder=. -/
theorem backup_line_no_marker (ts : PyStr) (order : List PyStr) (entries : Entries) :
    leadEq (lit ("BootOrder=")) (pyStrip (backupContent ts order entries)) = false := by
  have hhash : ∃ r, backupContent ts order entries = Char.ofNat 35 :: r := ⟨_, rfl⟩
  obtain ⟨r, hr⟩ := hhash
  rw [hr]
  unfold pyStrip lstripWS
  rw [List.dropWhile_cons]
  have hws : (Char.ofNat 35).isWhitespace = false := by decide
  rw [hws]
  simp only [Bool.false_eq_true, if_false]
  obtain ⟨r2, hr2⟩ := rstripWS_cons_head hws r
  rw [hr2]
  rfl

/-- A backup file whose content contains no newline (which holds for
every content write_backup produces from a real timestamp and parsed
entries, since neither may contain a newline) can never be read back:
read_backup_order fails reporting the missing BootOrder= line. -/
theorem write_backup_not_readable (ts path : PyStr) (order : List PyStr) (entries : Entries)
    (h : nlChar ∉ backupContent ts order entries) :
    read_backup_order path (some (backupContent ts order entries))
      = .error (.boot (lit ("Backup konnte nicht gelesen werden: ") ++ path
          ++ lit (" (BootOrder= Zeile im Backup fehlt.)"))) := by
  have hne : backupContent ts order entries ≠ [] := by
    obtain ⟨r, hr⟩ := (⟨_, rfl⟩ : ∃ r, backupContent ts order entries = Char.ofNat 35 :: r)
    rw [hr]
    simp
  have hsingle := pySplitlines_no_nl h hne
  unfold read_backup_order
  dsimp only []
  rw [hsingle]
  rw [List.find?_cons_of_neg _ (by
    rw [backup_line_no_marker]
    simp)]
  rw [List.find?_nil]
  dsimp only []
  rw [List.append_assoc, List.append_assoc]
  rfl

/-- C1: the write-then-read round trip of the backup store fails instead
of reproducing the parsed order, because write_backup separates header,
BootOrder= field and entry fields with spaces instead of newlines, so the
whole backup is one line starting with # and read_backup_order finds no
line starting with BootOrder=.  Evaluated at the failing input: the valid
query output below parses to the order [0001, 0002]; writing that state
with write_backup and reading the written content back with
read_backup_order yields the missing-BootOrder-line error, not the order. -/
theorem C1_roundtrip_fails :
    parse_boot_order (lit ("BootOrder: 0001,0002\nBoot0001* Windows\nBoot0002* Ubuntu"))
      = .ok [lit ("0001"), lit ("0002")]
    ∧ parse_entries (lit ("BootOrder: 0001,0002\nBoot0001* Windows\nBoot0002* Ubuntu"))
      = .ok [(lit ("0001"), lit ("Windows")), (lit ("0002"), lit ("Ubuntu"))]
    ∧ read_backup_order (lit ("/var/backups/bootorder.txt"))
        (some (backupContent (lit ("2026-10-12T00:00:00"))
          [lit ("0001"), lit ("0002")]
          [(lit ("0001"), lit ("Windows")), (lit ("0002"), lit ("Ubuntu"))]))
      = .error (.boot (lit
          ("Backup konnte nicht gelesen werden: /var/backups/bootorder.txt (BootOrder= Zeile im Backup fehlt.)"))) := by
  refine ⟨by decide, by decide, by decide⟩

/-- A concrete valid two-entry query output used by witnesses. -/
def exampleOut : PyStr := lit ("BootOrder: 0001,0002\nBoot0001* Windows\nBoot0002* Ubuntu")

/-- A concrete benign world used by witnesses. -/
def exampleWorld : World :=
  ⟨true, true, lit ("TS"), .ok exampleOut, none, .ok (lit ("ok")), true,
    some (lit ("BootOrder=0003,0001")), .ok exampleOut, .ok (lit ("ok"))⟩

/-- A concrete id-targeting non-interactive command line used by witnesses. -/
def exampleArgs : Args :=
  ⟨some (lit ("0002")), none, false, lit ("/var/backups/bootorder.txt"), false, true⟩

/-- C2: the finally-block restore is the final trace segment of every run
(normal completion, recognized error or unanticipated exception anywhere
in steps 2-6), before the exit code takes effect; in non-backup mode a
run whose read step captured a snapshot re-applies exactly the captured
original order (the external set call with that very order is launched
inside the restore block), and a run with no snapshot only emits the
warning and completes without applying anything. -/
theorem C2_guaranteed_restore (w : World) (args : Args)
    (hnb : args.restoreFromBackup = false) :
    (∃ pre, (runMain w args).1 = pre ++ restoreBlock w args (snapOf w))
    ∧ (∀ s : List PyStr × Entries, snapOf w = some s →
        Act.setCall s.1 ∈ restoreBlock w args (snapOf w))
    ∧ (snapOf w = none →
        restoreBlock w args (snapOf w) = [Act.warnNoSnapshot, Act.logRestoreDone]) := by
  refine ⟨⟨_, rfl⟩, ?_, ?_⟩
  · intro s hs
    obtain ⟨_, _, hq⟩ := snapOf_some hs
    obtain ⟨hne, hhex⟩ := get_current_state_ok_shape hq
    have hacts := set_boot_order_acts_of_valid s.1 w.setRestore hne hhex
    rw [hs]
    unfold restoreBlock restoreInner
    rw [hnb, if_neg Bool.false_ne_true]
    dsimp only []
    rw [hne, if_neg Bool.false_ne_true]
    rcases hsb : set_boot_order s.1 w.setRestore with ⟨a, r⟩
    rw [hsb] at hacts
    dsimp only [] at hacts
    subst hacts
    cases r with
    | ok _ => simp
    | error e => cases e <;> simp
  · intro hs
    rw [hs]
    unfold restoreBlock restoreInner
    rw [hnb]
    rfl

/-- C2 witness: in the benign world the snapshot is the parsed state of
the example output and the restore block re-launches the set call with
the original order [0001, 0002]. -/
theorem C2_guaranteed_restore_witness :
    Act.setCall [lit ("0001"), lit ("0002")]
      ∈ restoreBlock exampleWorld exampleArgs (snapOf exampleWorld) :=
  (C2_guaranteed_restore exampleWorld exampleArgs rfl).2.1
    ([lit ("0001"), lit ("0002")],
      [(lit ("0001"), lit ("Windows")), (lit ("0002"), lit ("Ubuntu"))])
    (by decide)

/-- C3: failures inside the guaranteed-restore step never escape it (the
restore block always terminates in one of its own completion or failure
log actions) and never change the exit code: the code is invariant under
every change of the restore-time oracle fields (backup file content,
second query, restore-time set call) and is fixed by the primary flow as
0 on success, 1 on a recognized BootOrderError, 2 on an unanticipated
exception. -/
theorem C3_restore_contained (w : World) (args : Args)
    (q2 : Except PyExc PyStr) (sr : Except PyExc PyStr) (bf : Option PyStr) :
    ((runMain { w with query2 := q2, setRestore := sr, backupFile := bf } args).2
      = (runMain w args).2)
    ∧ ((∃ a, restoreBlock w args (snapOf w) = a ++ [Act.logRestoreDone])
      ∨ (∃ a m, restoreBlock w args (snapOf w) = a ++ [Act.logRestoreFailed m])
      ∨ (∃ a, restoreBlock w args (snapOf w) = a ++ [Act.logRestoreUnexpected]))
    ∧ ((primaryFlow w args).2 = .ok () → (runMain w args).2 = 0)
    ∧ (∀ m, (primaryFlow w args).2 = .error (.boot m) → (runMain w args).2 = 1)
    ∧ ((primaryFlow w args).2 = .error .other → (runMain w args).2 = 2) := by
  refine ⟨rfl, ?_, ?_, ?_, ?_⟩
  · rcases hsb : restoreInner w args (snapOf w) with ⟨a, r⟩
    unfold restoreBlock
    rw [hsb]
    cases r with
    | ok _ => exact Or.inl ⟨a, rfl⟩
    | error e =>
      cases e with
      | boot m => exact Or.inr (Or.inl ⟨a, m, rfl⟩)
      | other => exact Or.inr (Or.inr ⟨a, rfl⟩)
  · intro h
    unfold runMain
    dsimp only []
    rw [h]
  · intro m h
    unfold runMain
    dsimp only []
    rw [h]
  · intro h
    unfold runMain
    dsimp only []
    rw [h]

/-- C3 witness: a failed backup write fixes the exit code at 1 and the
code is unchanged when the restore-time oracle fields are replaced. -/
theorem C3_restore_contained_witness :
    ((runMain { { exampleWorld with backupWrite := some (lit ("EACCES")) } with
        query2 := .error .other, setRestore := .error .other, backupFile := none }
        exampleArgs).2
      = (runMain { exampleWorld with backupWrite := some (lit ("EACCES")) } exampleArgs).2)
    ∧ (runMain { exampleWorld with backupWrite := some (lit ("EACCES")) } exampleArgs).2 = 1 :=
  ⟨(C3_restore_contained { exampleWorld with backupWrite := some (lit ("EACCES")) }
      exampleArgs (.error .other) (.error .other) none).1,
   (C3_restore_contained { exampleWorld with backupWrite := some (lit ("EACCES")) }
      exampleArgs (.error .other) (.error .other) none).2.2.2.1
      (lit ("Backup konnte nicht geschrieben werden: /var/backups/bootorder.txt (EACCES)"))
      (by decide)⟩

/-- The restore-from-backup command line used by witnesses. -/
def exampleArgsRestore : Args :=
  ⟨some (lit ("0002")), none, false, lit ("/var/backups/bootorder.txt"), true, true⟩

/-- C9: in restore-from-backup mode, when the backup order references an
id absent from the freshly re-read current entries, the restore block
fails with the message naming exactly the missing ids upper-cased, the
failure is caught and logged inside the block (the process does not
crash on it), and no external set call is launched in that restore step. -/
theorem C9_restore_missing_ids (w : World) (args : Args)
    (snap : Option (List PyStr × Entries)) (bo o2 : List PyStr) (e2 : Entries)
    (hrfb : args.restoreFromBackup = true)
    (hr : read_backup_order args.backupPath w.backupFile = .ok bo)
    (hq : get_current_state w.query2 = .ok (o2, e2))
    (hm : bo.filter (fun x => !(hasKey e2 x)) ≠ []) :
    restoreBlock w args snap
      = [Act.queryCall,
          Act.logRestoreFailed
            (lit ("Backup/Order enthält unbekannte IDs (aktuell nicht vorhanden): ")
              ++ List.intercalate (lit (", "))
                  ((bo.filter (fun x => !(hasKey e2 x))).map pyUpper))]
    ∧ ∀ o : List PyStr, Act.setCall o ∉ restoreBlock w args snap := by
  have h2 : (bo.filter (fun x => !(hasKey e2 x))).isEmpty = false :=
    List.isEmpty_eq_false.mpr hm
  have hval : validate_ids_exist bo e2
      = .error (.boot (lit ("Backup/Order enthält unbekannte IDs (aktuell nicht vorhanden): ")
          ++ List.intercalate (lit (", "))
              ((bo.filter (fun x => !(hasKey e2 x))).map pyUpper))) := by
    unfold validate_ids_exist
    rw [if_neg (by simp [h2])]
  have hblock : restoreBlock w args snap
      = [Act.queryCall,
          Act.logRestoreFailed
            (lit ("Backup/Order enthält unbekannte IDs (aktuell nicht vorhanden): ")
              ++ List.intercalate (lit (", "))
                  ((bo.filter (fun x => !(hasKey e2 x))).map pyUpper))] := by
    unfold restoreBlock restoreInner
    rw [hrfb, if_pos rfl, hr]
    dsimp only []
    rw [hq]
    dsimp only []
    rw [hval]
    rfl
  refine ⟨hblock, ?_⟩
  intro o
  rw [hblock]
  simp

/-- C9 witness: spec scenario C, backup order 0003,0001 against current
entries 0001 and 0002, evaluated in the concrete world. -/
theorem C9_restore_missing_ids_witness :
    restoreBlock exampleWorld exampleArgsRestore (snapOf exampleWorld)
      = [Act.queryCall,
          Act.logRestoreFailed
            (lit ("Backup/Order enthält unbekannte IDs (aktuell nicht vorhanden): ")
              ++ List.intercalate (lit (", "))
                  ((([lit ("0003"), lit ("0001")]).filter
                    (fun x => !(hasKey [(lit ("0001"), lit ("Windows")),
                      (lit ("0002"), lit ("Ubuntu"))] x))).map pyUpper))]
    ∧ ∀ o : List PyStr,
        Act.setCall o ∉ restoreBlock exampleWorld exampleArgsRestore (snapOf exampleWorld) :=
  C9_restore_missing_ids exampleWorld exampleArgsRestore (snapOf exampleWorld)
    [lit ("0003"), lit ("0001")] [lit ("0001"), lit ("0002")]
    [(lit ("0001"), lit ("Windows")), (lit ("0002"), lit ("Ubuntu"))]
    rfl (by decide) (by decide) (by decide)

/-- A world in which the backup write fails while a stale backup file
with the order 0003 exists and the firmware state at restore time
contains entry 0003. -/
def staleBackupWorld : World :=
  ⟨true, true, lit ("TS"), .ok exampleOut, some (lit ("Permission denied")),
    .ok (lit ("ok")), true, some (lit ("BootOrder=0003")),
    .ok (lit ("BootOrder: 0003\nBoot0003* Debian")), .ok (lit ("ok"))⟩

/-- A world in which only the backup write fails. -/
def failedWriteWorld : World := { exampleWorld with backupWrite := some (lit ("EIO")) }

/-- C7 counterexample: in a restore-from-backup run whose backup write
fails after the snapshot [0001, 0002] was captured, the guaranteed
restore still launches a firmware write, and with the stale backup file
order [0003], not with the already-current original order — refuting
that the restore re-application of the original order is the only
firmware write that can still occur after a failed write_backup. -/
theorem C7_cex :
    snapOf staleBackupWorld
      = some ([lit ("0001"), lit ("0002")],
          [(lit ("0001"), lit ("Windows")), (lit ("0002"), lit ("Ubuntu"))])
    ∧ staleBackupWorld.backupWrite = some (lit ("Permission denied"))
    ∧ Act.setCall [lit ("0003")] ∈ (runMain staleBackupWorld exampleArgsRestore).1
    ∧ [lit ("0003")] ≠ [lit ("0001"), lit ("0002")] :=
  ⟨by decide, by decide, by decide, by decide⟩

/-- C7 amended: in every run in which write_backup is attempted (a
snapshot was captured) and fails, the apply step is never reached — no
external set call occurs in the primary flow at all, in particular none
with the reordered new order — and in non-backup mode the only set call
of the entire run is the guaranteed-restore re-application of the
captured original order (in restore-from-backup mode the restore may
instead apply the order read from a pre-existing backup file). -/
theorem C7_amended (w : World) (args : Args) (s : List PyStr × Entries) (m : PyStr)
    (hs : snapOf w = some s) (hw : w.backupWrite = some m) :
    (∀ o : List PyStr, Act.setCall o ∉ (primaryFlow w args).1)
    ∧ (args.restoreFromBackup = false →
        ∀ o : List PyStr, Act.setCall o ∈ (runMain w args).1 → o = s.1) := by
  obtain ⟨h1, h2, hq⟩ := snapOf_some hs
  have hread : readStage w = ([Act.queryCall], .ok s) := by
    unfold readStage
    rw [h1, h2, hq]
    rfl
  have hwb : write_backup args.backupPath s.1 s.2 w.ts w.backupWrite
      = ([], .error (.boot (lit ("Backup konnte nicht geschrieben werden: ")
          ++ args.backupPath ++ lit (" (") ++ m ++ lit (")")))) := by
    unfold write_backup
    rw [hw]
  have hprim : primaryFlow w args
      = ([Act.queryCall], .error (.boot (lit ("Backup konnte nicht geschrieben werden: ")
          ++ args.backupPath ++ lit (" (") ++ m ++ lit (")")))) := by
    unfold primaryFlow
    rw [hread]
    dsimp only []
    rw [hwb]
    rfl
  constructor
  · intro o
    rw [hprim]
    simp
  · intro hnb o ho
    obtain ⟨hne, hhex⟩ := get_current_state_ok_shape hq
    have hacts := set_boot_order_acts_of_valid s.1 w.setRestore hne hhex
    have hrb : ∃ tl, restoreBlock w args (snapOf w) = Act.setCall s.1 :: tl
        ∧ ∀ o2 : List PyStr, Act.setCall o2 ∉ tl := by
      rw [hs]
      unfold restoreBlock restoreInner
      rw [hnb, if_neg Bool.false_ne_true]
      dsimp only []
      rw [hne, if_neg Bool.false_ne_true]
      rcases hsb : set_boot_order s.1 w.setRestore with ⟨a, r⟩
      rw [hsb] at hacts
      dsimp only [] at hacts
      subst hacts
      cases r with
      | ok _ => exact ⟨[Act.logRestoreDone], rfl, by simp⟩
      | error e =>
        cases e with
        | boot mm => exact ⟨[Act.logRestoreFailed mm], rfl, by simp⟩
        | other => exact ⟨[Act.logRestoreUnexpected], rfl, by simp⟩
    obtain ⟨tl, htl, htl2⟩ := hrb
    unfold runMain at ho
    dsimp only [] at ho
    rw [hprim] at ho
    dsimp only [] at ho
    rw [htl] at ho
    simp only [List.mem_append, List.mem_cons, List.mem_singleton] at ho
    rcases ho with (h | h) | (h | h)
    · exact absurd h (by simp)
    · exact absurd h (by simp)
    · exact Act.setCall.inj h
    · exact absurd h (htl2 o)

/-- C7 amended witness: with the backup write failing in the benign
non-backup world, the primary flow launches no set call and the one set
call of the run carries the original order [0001, 0002]. -/
theorem C7_amended_witness :
    Act.setCall [lit ("0003")] ∉ (primaryFlow failedWriteWorld exampleArgs).1
    ∧ [lit ("0001"), lit ("0002")] = [lit ("0001"), lit ("0002")] :=
  ⟨(C7_amended failedWriteWorld exampleArgs
      ([lit ("0001"), lit ("0002")],
        [(lit ("0001"), lit ("Windows")), (lit ("0002"), lit ("Ubuntu"))])
      (lit ("EIO")) (by decide) (by decide)).1 [lit ("0003")],
   (C7_amended failedWriteWorld exampleArgs
      ([lit ("0001"), lit ("0002")],
        [(lit ("0001"), lit ("Windows")), (lit ("0002"), lit ("Ubuntu"))])
      (lit ("EIO")) (by decide) (by decide)).2 rfl [lit ("0001"), lit ("0002")] (by decide)⟩

/-- C8 counterexample: the empty string supplied as the raw target id
matches neither the 4-hex-digit shape nor any key of the current entries,
yet the run does not exit with the recognized-error code 1: the source
tests `if args.id:` for truthiness, so the empty id falls through to the
name branch with no name given (None.lower() raises AttributeError) and
the run exits with the unanticipated-failure code 2. -/
theorem C8_cex :
    isHex4 (pyLower []) = false
    ∧ hasKey [(lit ("0001"), lit ("Windows")), (lit ("0002"), lit ("Ubuntu"))] (pyLower []) = false
    ∧ (runMain exampleWorld { exampleArgs with id := some [] }).2 = 2 :=
  ⟨by decide, by decide, by decide⟩

/-- C8 amended: for every non-empty string supplied as the raw target
id, if after the case-normalization argparse applies it fails the
4-hex-digit shape or is not a key of the current entries, the run fails
with the recognized operational error and exit code 1 (never 2); if it
is well-formed and present its normalized form is selected as the
target.  An empty raw id is instead treated as absent by the truthiness
test of the source and leads to the unanticipated-failure exit code 2. -/
theorem C8_amended (w : World) (args : Args) (raw : PyStr) (s : List PyStr × Entries)
    (hid : args.id = some raw) (hraw : raw ≠ [])
    (hs : snapOf w = some s) (hbw : w.backupWrite = none) :
    ((isHex4 (pyLower raw) = false ∨ hasKey s.2 (pyLower raw) = false) →
      (runMain w args).2 = 1)
    ∧ (isHex4 (pyLower raw) = true → hasKey s.2 (pyLower raw) = true →
      Act.targetChosen (pyLower raw) ∈ (runMain w args).1) := by
  obtain ⟨h1, h2, hq⟩ := snapOf_some hs
  have hread : readStage w = ([Act.queryCall], .ok s) := by
    unfold readStage
    rw [h1, h2, hq]
    rfl
  have hwb : write_backup args.backupPath s.1 s.2 w.ts w.backupWrite
      = ([Act.backupWriteCall (backupContent w.ts s.1 s.2)], .ok ()) := by
    unfold write_backup
    rw [hbw]
  have hmap : pyLower raw ≠ [] := fun hq2 => hraw (List.map_eq_nil_iff.mp hq2)
  have hie : (pyLower raw).isEmpty = false := List.isEmpty_eq_false.mpr hmap
  constructor
  · intro hbad
    have hres : ∃ mm, resolveTarget args s.2 = .error (.boot mm) := by
      unfold resolveTarget argsIdValue
      rw [hid]
      dsimp only [Option.map]
      rw [hie, if_neg Bool.false_ne_true]
      rcases hbad with hb | hb
      · rw [hb]
        exact ⟨_, rfl⟩
      · by_cases hx : isHex4 (pyLower raw) = true
        · rw [hx, hb]
          exact ⟨_, rfl⟩
        · rw [(Bool.not_eq_true _).mp hx]
          exact ⟨_, rfl⟩
    obtain ⟨mm, hres⟩ := hres
    have hprim : primaryFlow w args
        = ([Act.queryCall] ++ [Act.backupWriteCall (backupContent w.ts s.1 s.2)],
            .error (.boot mm)) := by
      unfold primaryFlow
      rw [hread]
      dsimp only []
      rw [hwb]
      dsimp only []
      rw [hres]
    unfold runMain
    dsimp only []
    rw [hprim]
  · intro hx hk
    have hres : resolveTarget args s.2 = .ok (pyLower raw) := by
      unfold resolveTarget argsIdValue
      rw [hid]
      dsimp only [Option.map]
      rw [hie, if_neg Bool.false_ne_true, hx, hk]
      rfl
    have hprim1 : Act.targetChosen (pyLower raw) ∈ (primaryFlow w args).1 := by
      unfold primaryFlow
      rw [hread]
      dsimp only []
      rw [hwb]
      dsimp only []
      rw [hres]
      dsimp only []
      rcases hsb : set_boot_order (new_order (pyLower raw) s.1) w.setMain with ⟨c, r⟩
      cases r with
      | error e => simp
      | ok _ =>
        dsimp only []
        by_cases hnp : args.noPrompt = true
        · rw [if_pos hnp]
          simp
        · rw [if_neg hnp]
          by_cases hpo : w.promptOk = true
          · rw [if_pos hpo]
            simp
          · rw [if_neg hpo]
            simp
    unfold runMain
    dsimp only []
    exact List.mem_append.mpr (Or.inl (List.mem_append.mpr (Or.inl hprim1)))

/-- C8 amended witness: the malformed id zzzz exits with code 1, the
well-formed present id 0002 is chosen as the target. -/
theorem C8_amended_witness :
    (runMain exampleWorld { exampleArgs with id := some (lit ("zzzz")) }).2 = 1
    ∧ Act.targetChosen (pyLower (lit ("0002"))) ∈ (runMain exampleWorld exampleArgs).1 :=
  ⟨(C8_amended exampleWorld { exampleArgs with id := some (lit ("zzzz")) } (lit ("zzzz"))
      ([lit ("0001"), lit ("0002")],
        [(lit ("0001"), lit ("Windows")), (lit ("0002"), lit ("Ubuntu"))])
      rfl (by decide) (by decide) rfl).1 (Or.inl (by decide)),
   (C8_amended exampleWorld exampleArgs (lit ("0002"))
      ([lit ("0001"), lit ("0002")],
        [(lit ("0001"), lit ("Windows")), (lit ("0002"), lit ("Ubuntu"))])
      rfl (by decide) (by decide) rfl).2 (by decide) (by decide)⟩
